import Mathlib

/-!
Verification of the plugin value-resolution engine of `raider`
(`src/raider/plugins.py`).

The Python classes are shallowly embedded as Lean structures holding the
mutable fields (`name`, `value`, `flags`), and each resolution method is
translated to a pure function from the pre-call state (plus the method's
inputs) to the post-call state, the returned value and the emitted log
lines.  Python `Optional[str]` becomes `Option String`; Python exceptions
(`KeyError`, `IndexError`, `TypeError`) become `Except` errors.  Python
truth testing on an optional string (`if output:`), under which both
`None` and the empty string are falsy, is made explicit by `truthy`.
External library calls (`re.search`, `BeautifulSoup.find_all`,
`json.loads`) are represented by their results, passed in as inputs.
-/

/-- Python truthiness of an `Optional[str]`: `None` and `""` are falsy,
every non-empty string is truthy.  This is the test performed by
`if output:` (plugins.py line 141), `elif item.value:` (line 939),
`if self.plugins[0].value:` (line 891) and
`plugin.value if plugin.value else None` (lines 699, 835). -/
def truthy : Option String → Bool
  | none => false
  | some s => !s.isEmpty

/-- Severity of a log line (`logging.debug` / `logging.warning`). -/
inductive LogLevel where
  | debug : LogLevel
  | warning : LogLevel
  deriving DecidableEq, Repr

/-- One emitted log line.  The message is abstracted to the identifier the
source interpolates into the format string (usually the plugin's name). -/
structure LogEntry where
  level : LogLevel
  message : String
  deriving DecidableEq, Repr

/-- First-match association lookup on a list of string pairs, modelling
Python `dict.get` / `dict[...]` presence for the string-keyed mappings the
code uses (user data, response cookies and headers, tag attributes). -/
def lookupStr : List (String × String) → String → Option String
  | [], _ => none
  | (k, v) :: rest, key => if k = key then some v else lookupStr rest key

/-- Flag `Plugin.NEEDS_USERDATA` (plugins.py line 61). -/
def NEEDS_USERDATA : Nat := 1

/-- Flag `Plugin.NEEDS_RESPONSE` (plugins.py line 62). -/
def NEEDS_RESPONSE : Nat := 2

/-- Flag `Plugin.DEPENDS_ON_OTHER_PLUGINS` (plugins.py line 63). -/
def DEPENDS_ON_OTHER_PLUGINS : Nat := 4

/-- State of a `Plugin` object (plugins.py lines 33-104): its identifier,
its optional cached value and its flag bit set.  The `function` attribute
is not stored; each resolution function below takes the strategy as an
explicit argument instead. -/
structure Plugin where
  name : String
  value : Option String
  flags : Nat

/-- Property `Plugin.needs_userdata` (plugins.py lines 180-183). -/
def needs_userdata (p : Plugin) : Bool := (p.flags &&& NEEDS_USERDATA) != 0

/-- Property `Plugin.needs_response` (plugins.py lines 185-188). -/
def needs_response (p : Plugin) : Bool := (p.flags &&& NEEDS_RESPONSE) != 0

/-- An HTTP response as the code reads it: the body text, the cookie jar
and the header map (`response.text`, `response.cookies`,
`response.headers`). -/
structure HttpResponse where
  text : String
  cookies : List (String × String)
  headers : List (String × String)

/-- A pre-request strategy (`self.function` called without a response):
it receives the plugin state and, when the plugin needs user data, the
user-data mapping, may mutate the state, and returns an optional string. -/
def PreStrategy : Type :=
  Plugin → Option (List (String × String)) → Plugin × Option String

/-- Translation of `Plugin.get_value` (plugins.py lines 106-123).  When
`NEEDS_RESPONSE` is not set the strategy is invoked (with the user data
exactly when `NEEDS_USERDATA` is set) and its result is assigned to
`self.value`; in every case `self.value` is returned. -/
def get_value (f : PreStrategy) (p : Plugin)
    (userdata : List (String × String)) : Plugin × Option String :=
  if needs_response p then (p, p.value)
  else
    let out := if needs_userdata p then f p (some userdata) else f p none
    ({out.1 with value := out.2}, out.2)

/-- A post-response strategy (`self.function` called with the response). -/
def RStrategy : Type := Plugin → HttpResponse → Plugin × Option String

/-- Translation of `Plugin.extract_value_from_response` (plugins.py lines
125-149).  The strategy runs on the response; a truthy output is stored in
`self.value` with a debug log, otherwise the state is left as the strategy
left it and a warning naming the plugin is logged. -/
def extract_value_from_response (f : RStrategy) (p : Plugin)
    (r : HttpResponse) : Plugin × List LogEntry :=
  let out := f p r
  if truthy out.2 then
    ({out.1 with value := out.2}, [⟨LogLevel.debug, out.1.name⟩])
  else
    (out.1, [⟨LogLevel.warning, out.1.name⟩])

/-- Strategy of `Cookie.extract_from_response` (plugins.py lines 669-673):
`response.cookies.get(self.name)`, no state mutation. -/
def cookie_extract_from_response : RStrategy :=
  fun p r => (p, lookupStr r.cookies p.name)

/-- Strategy of `Header.extract_from_response` (plugins.py lines 758-762):
`response.headers.get(self.name)`, no state mutation. -/
def header_extract_from_response : RStrategy :=
  fun p r => (p, lookupStr r.headers p.name)

/-- Strategy of the `Variable` plugin (plugins.py line 534):
`lambda data: data[self.name]`.  Python subscripting raises `KeyError`
when the key is missing, modelled as `Except.error` carrying the key. -/
def variable_function (p : Plugin)
    (data : List (String × String)) : Except String (Option String) :=
  match lookupStr data p.name with
  | some v => Except.ok (some v)
  | none => Except.error p.name

/-- Constructor `Variable.__init__` (plugins.py lines 521-536): name, no
initial value, flags `NEEDS_USERDATA`. -/
def Variable_init (name : String) : Plugin := ⟨name, none, NEEDS_USERDATA⟩

/-- `Plugin.get_value` specialised to a `Variable` plugin, whose stored
strategy is `variable_function` and can raise.  Mirrors lines 106-123 with
the `NEEDS_USERDATA` branch taken and the exception propagated. -/
def variable_get_value (p : Plugin)
    (data : List (String × String)) : Except String (Plugin × Option String) :=
  if needs_response p then Except.ok (p, p.value)
  else
    match variable_function p data with
    | Except.ok out => Except.ok ({p with value := out}, out)
    | Except.error e => Except.error e

/-- Result of Python `re.search(pattern, text)`: the leftmost match of the
pattern in the text.  `groups` is the tuple returned by `Match.groups()`,
i.e. the contents of the parenthesised capture groups in order (group 1
onward in Python's numbering), `none` for a group that did not take part
in the match. -/
structure ReMatch where
  groups : List (Option String)

/-- State of a `Regex` plugin (plugins.py lines 196-244): name, pattern,
`extract` index into `Match.groups()` (constructor default 0, hence the
first parenthesised group), and cached value. -/
structure RegexState where
  name : String
  regex : String
  extract : Nat
  value : Option String

/-- Translation of `Regex.extract_regex` (plugins.py lines 246-274).  The
input `m` is the result of `re.search(self.regex, response.text)`.  On a
match, `self.value = matches.groups()[self.extract]` (an out-of-range
index raises `IndexError`, the `Except.error` case) and a debug line is
logged; with no match a warning is logged.  Either way the function
returns `self.value`. -/
def extract_regex (p : RegexState) (m : Option ReMatch) :
    Except Unit (RegexState × Option String × List LogEntry) :=
  match m with
  | some mt =>
    match mt.groups.get? p.extract with
    | some g => Except.ok ({p with value := g}, g, [⟨LogLevel.debug, p.name⟩])
    | none => Except.error ()
  | none => Except.ok (p, p.value, [⟨LogLevel.warning, p.name⟩])

/-- A markup element as produced by `BeautifulSoup.find_all(tag)`: its
attribute mapping `item.attrs`. -/
structure HtmlElement where
  attrs : List (String × String)

/-- Modelled from the spec: `match_tag` lives in `raider.utils`, which is
not among the provided sources.  Per the spec (Tag Matcher; Html strategy)
it decides whether a markup element satisfies every attribute-name to
pattern constraint, each pattern being matched as a regular expression
against that attribute's value, an absent attribute failing the
constraint.  The regular-expression matcher itself is abstracted as the
argument `mp : pattern → value → Bool`. -/
def match_tag (mp : String → String → Bool) (e : HtmlElement)
    (constraints : List (String × String)) : Bool :=
  constraints.all fun c =>
    match lookupStr e.attrs c.1 with
    | some v => mp c.2 v
    | none => false

/-- State of an `Html` plugin (plugins.py lines 281-335): name, tag,
attribute constraints, name of the attribute to extract, cached value. -/
structure HtmlState where
  name : String
  tag : String
  attributes : List (String × String)
  extract : String
  value : Option String

/-- The loop of `Html.extract_html_tag` (plugins.py lines 358-360): for
each element of `find_all(tag)` in document order, if it satisfies the
constraints, `self.value = item.attrs.get(self.extract)`. -/
def htmlFold (mp : String → String → Bool) (attrs : List (String × String))
    (ex : String) : Option String → List HtmlElement → Option String
  | v, [] => v
  | v, e :: rest =>
      htmlFold mp attrs ex
        (if match_tag mp e attrs then lookupStr e.attrs ex else v) rest

/-- Translation of `Html.extract_html_tag` (plugins.py lines 337-363).
The input `elems` is `soup.find_all(self.tag)` in document order.  After
the loop a single debug line is logged and `self.value` is returned. -/
def extract_html_tag (mp : String → String → Bool) (p : HtmlState)
    (elems : List HtmlElement) : HtmlState × Option String × List LogEntry :=
  let v := htmlFold mp p.attributes p.extract p.value elems
  ({p with value := v}, v, [⟨LogLevel.debug, p.name⟩])

/-- The last element of the list satisfying the predicate, in list order;
used to state the last-match-wins behaviour of `extract_html_tag`. -/
def lastMatching (pred : HtmlElement → Bool) :
    List HtmlElement → Option HtmlElement
  | [] => none
  | e :: rest =>
    match lastMatching pred rest with
    | some r => some r
    | none => if pred e then some e else none

mutual

/-- A parsed JSON document as produced by `json.loads`.  Numbers are
restricted to integers (float formatting is orthogonal to every claim);
object keys are unique, as `json.loads` keeps one binding per key. -/
inductive JsonValue where
  | null : JsonValue
  | bool : Bool → JsonValue
  | num : Int → JsonValue
  | str : String → JsonValue
  | arr : JsonArr → JsonValue
  | obj : JsonObj → JsonValue

/-- Spine of a JSON array (a Python list). -/
inductive JsonArr where
  | nil : JsonArr
  | cons : JsonValue → JsonArr → JsonArr

/-- Spine of a JSON object (a Python dict), in insertion order. -/
inductive JsonObj where
  | nil : JsonObj
  | cons : String → JsonValue → JsonObj → JsonObj

end

/-- Number of elements of a JSON array (`len` on a list). -/
def JsonArr.length : JsonArr → Nat
  | .nil => 0
  | .cons _ rest => rest.length + 1

/-- Element at a zero-based index of a JSON array, when in range. -/
def JsonArr.get? : JsonArr → Nat → Option JsonValue
  | .nil, _ => none
  | .cons v _, 0 => some v
  | .cons _ rest, n + 1 => rest.get? n

/-- Whether a JSON array has the given string among its elements; this is
Python `k in temp` on a list, where `==` between the string `k` and a
non-string element is `False`. -/
def JsonArr.containsStr : JsonArr → String → Bool
  | .nil, _ => false
  | .cons (JsonValue.str s) rest, k => s == k || rest.containsStr k
  | .cons _ rest, k => rest.containsStr k

/-- Number of keys of a JSON object (`len` on a dict). -/
def JsonObj.length : JsonObj → Nat
  | .nil => 0
  | .cons _ _ rest => rest.length + 1

/-- Value bound to a key of a JSON object, if present (`k in temp`
followed by `temp[k]` on a dict). -/
def JsonObj.lookup : JsonObj → String → Option JsonValue
  | .nil, _ => none
  | .cons k v rest, key => if k = key then some v else rest.lookup key

/-- Python substring test `k in s` on strings (`""` is in every string). -/
def strStarts : List Char → List Char → Bool
  | [], _ => true
  | _ :: _, [] => false
  | a :: as, b :: bs => a == b && strStarts as bs

/-- Auxiliary for `pyInStr`: whether the pattern occurs in the text. -/
def strHasSub (pat : List Char) : List Char → Bool
  | [] => pat.isEmpty
  | c :: rest => strStarts pat (c :: rest) || strHasSub pat rest

/-- Python `k in s` for strings: substring containment. -/
def pyInStr (k s : String) : Bool := strHasSub k.toList s.toList

/-- The single-quote character, written by code point to keep the source
free of quote-character literals. -/
def squote : Char := Char.ofNat 39

/-- The double-quote character. -/
def dquote : Char := Char.ofNat 34

/-- The backslash character. -/
def bslash : Char := Char.ofNat 92

/-- Quote character chosen by CPython `repr` for a string: a single quote
unless the string contains one and no double quote. -/
def pyreprQuote (s : String) : Char :=
  if s.toList.contains squote && !(s.toList.contains dquote) then dquote
  else squote

/-- CPython `repr` escaping of one character under the chosen quote:
backslash and the quote are backslash-escaped, newline, carriage return
and tab become two-character escapes; other printable characters stand
for themselves (the model is restricted to printable text, which is all
the claims exercise). -/
def pyreprEsc (q : Char) : List Char → List Char
  | [] => []
  | c :: rest =>
    (if c = bslash then [bslash, bslash]
     else if c = q then [bslash, c]
     else if c = Char.ofNat 10 then [bslash, 'n']
     else if c = Char.ofNat 13 then [bslash, 'r']
     else if c = Char.ofNat 9 then [bslash, 't']
     else [c]) ++ pyreprEsc q rest

/-- CPython `repr` of a string: the chosen quote around the escaped
characters. -/
def pyreprStr (s : String) : String :=
  let q := pyreprQuote s
  String.mk (q :: (pyreprEsc q s.toList ++ [q]))

/-- Decimal rendering of an integer, as Python `str` prints an `int`. -/
def intStr (n : Int) : String :=
  match n with
  | Int.ofNat m => Nat.repr m
  | Int.negSucc m => "-" ++ Nat.repr (m + 1)

mutual

/-- Python `repr` of a parsed JSON value: `None`, `True`, `False`,
decimal integers, quoted strings, and bracketed containers with `, `
between the items and `: ` after each dict key. -/
def pyrepr : JsonValue → String
  | .null => "None"
  | .bool true => "True"
  | .bool false => "False"
  | .num n => intStr n
  | .str s => pyreprStr s
  | .arr xs => "[" ++ pyreprArr xs ++ "]"
  | .obj fs => "\x7b" ++ pyreprObj fs ++ "\x7d"

/-- Comma-joined `repr` of the elements of a list. -/
def pyreprArr : JsonArr → String
  | .nil => ""
  | .cons v .nil => pyrepr v
  | .cons v rest => pyrepr v ++ ", " ++ pyreprArr rest

/-- Comma-joined `repr` of the key-value bindings of a dict. -/
def pyreprObj : JsonObj → String
  | .nil => ""
  | .cons k v .nil => pyreprStr k ++ ": " ++ pyrepr v
  | .cons k v rest => pyreprStr k ++ ": " ++ pyrepr v ++ ", " ++ pyreprObj rest

end

/-- Python `str` of a parsed JSON value, as applied by
`Json.extract_json_field` (plugins.py line 490): identical to `repr`
except that a string renders as itself, unquoted. -/
def pystr : JsonValue → String
  | JsonValue.str s => s
  | v => pyrepr v

/-- A JSON string rendered as a JSON text token (double-quoted; escaping
of special characters is omitted, no compared value contains any). -/
def jsonStrQuote (s : String) : String :=
  String.mk (dquote :: (s.toList ++ [dquote]))

mutual

/-- Modelled from the spec: the "textual JSON form" the spec says objects
and arrays render as, i.e. the standard JSON rendering of the value (what
Python `json.dumps` would produce).  Declared only to be compared with
the stringification the code actually performs. -/
def jsonTextualForm : JsonValue → String
  | .null => "null"
  | .bool true => "true"
  | .bool false => "false"
  | .num n => intStr n
  | .str s => jsonStrQuote s
  | .arr xs => "[" ++ jsonTextualArr xs ++ "]"
  | .obj fs => "\x7b" ++ jsonTextualObj fs ++ "\x7d"

/-- Comma-joined JSON rendering of the elements of an array. -/
def jsonTextualArr : JsonArr → String
  | .nil => ""
  | .cons v .nil => jsonTextualForm v
  | .cons v rest => jsonTextualForm v ++ ", " ++ jsonTextualArr rest

/-- Comma-joined JSON rendering of the bindings of an object. -/
def jsonTextualObj : JsonObj → String
  | .nil => ""
  | .cons k v .nil => jsonStrQuote k ++ ": " ++ jsonTextualForm v
  | .cons k v rest =>
      jsonStrQuote k ++ ": " ++ jsonTextualForm v ++ ", " ++ jsonTextualObj rest

end

/-- One step of a parsed JSON path, as produced by `parse_json_filter`
(from `raider.utils`): either a key (a plain item) or a zero-based array
index (an item of the form `[n]`, recognised by `item.startswith("[")`
at plugins.py line 462). -/
inductive JsonStep where
  | key : String → JsonStep
  | idx : Nat → JsonStep

/-- Outcome of one step (or of a whole walk) of the traversal loop of
`Json.extract_json_field`: descend to a value, break with the not-found
warning (`is_valid = False`), or raise a Python exception. -/
inductive StepRes where
  | ok : JsonValue → StepRes
  | absent : StepRes
  | err : StepRes

/-- One iteration of the loop of `Json.extract_json_field` (plugins.py
lines 461-487).  For an index item: `len(temp)` raises `TypeError` on
null, boolean or number; when `len(temp) > index`, `temp[index]` indexes
a list, takes a one-character substring of a string, or raises `KeyError`
on a dict; otherwise the loop breaks with the array-index warning.  For a
key item: `item in temp` is key containment on a dict, element membership
on a list, substring test on a string, and a `TypeError` otherwise; when
contained, `temp[item]` descends into a dict and raises `TypeError` on a
list or string; otherwise the loop breaks with the missing-key warning. -/
def runStep (v : JsonValue) : JsonStep → StepRes
  | JsonStep.idx n =>
    match v with
    | JsonValue.arr xs =>
      match xs.get? n with
      | some w => StepRes.ok w
      | none => StepRes.absent
    | JsonValue.obj fs =>
      if fs.length > n then StepRes.err else StepRes.absent
    | JsonValue.str s =>
      match s.toList.get? n with
      | some c => StepRes.ok (JsonValue.str (String.mk [c]))
      | none => StepRes.absent
    | _ => StepRes.err
  | JsonStep.key k =>
    match v with
    | JsonValue.obj fs =>
      match fs.lookup k with
      | some w => StepRes.ok w
      | none => StepRes.absent
    | JsonValue.arr xs =>
      if xs.containsStr k then StepRes.err else StepRes.absent
    | JsonValue.str s =>
      if pyInStr k s then StepRes.err else StepRes.absent
    | _ => StepRes.err

/-- The whole traversal loop of `Json.extract_json_field`: run the steps
in order, stopping at the first break or exception. -/
def runSteps (v : JsonValue) : List JsonStep → StepRes
  | [] => StepRes.ok v
  | s :: rest =>
    match runStep v s with
    | StepRes.ok w => runSteps w rest
    | StepRes.absent => StepRes.absent
    | StepRes.err => StepRes.err

/-- State of a `Json` plugin (plugins.py lines 377-433): name, the parsed
path (the result of `parse_json_filter(self.extract)`), and cached
value. -/
structure JsonState where
  name : String
  extract : List JsonStep
  value : Option String

/-- Translation of `Json.extract_json_field` (plugins.py lines 441-495)
applied to an already parsed document.  A completed walk stores and
returns `str(temp)` with a debug log; a break stores and returns `None`
with a warning; a Python exception propagates. -/
def extract_json_field (p : JsonState) (doc : JsonValue) :
    Except Unit (JsonState × Option String × List LogEntry) :=
  match runSteps doc p.extract with
  | StepRes.ok v =>
      Except.ok ({p with value := some (pystr v)}, some (pystr v),
        [⟨LogLevel.debug, p.name⟩])
  | StepRes.absent =>
      Except.ok ({p with value := none}, none, [⟨LogLevel.warning, p.name⟩])
  | StepRes.err => Except.error ()

/-- `Json.extract_json_field` on a text: `json.loads(text)` (plugins.py
line 456) raises on a malformed body, modelled by the abstract `parse`
returning `none`; a parsed document is then traversed. -/
def extract_json_text (parse : String → Option JsonValue) (p : JsonState)
    (text : String) : Except Unit (JsonState × Option String × List LogEntry) :=
  match parse text with
  | some doc => extract_json_field p doc
  | none => Except.error ()

/-- Translation of `Json.extract_json_from_response` (plugins.py lines
435-439): the strategy of a response-driven `Json` plugin, applied to
`response.text`. -/
def extract_json_from_response (parse : String → Option JsonValue)
    (p : JsonState) (r : HttpResponse) :
    Except Unit (JsonState × Option String × List LogEntry) :=
  extract_json_text parse p r.text

/-- Resolution of a `Json` plugin built by `Json.from_plugin` (plugins.py
lines 497-507): its `function` attribute is reassigned to
`extract_json_field` itself, so it is driven by the upstream plugin's
already-resolved value as the text. -/
def extract_json_from_plugin_value (parse : String → Option JsonValue)
    (p : JsonState) (upstream : String) :
    Except Unit (JsonState × Option String × List LogEntry) :=
  extract_json_text parse p upstream

/-- The pre-request strategy installed by `Cookie.from_plugin` (plugins.py
line 699) and `Header.from_plugin` (line 835):
`lambda: plugin.value if plugin.value else None`, reading the upstream
plugin's value at call time.  `srcValNow` is that value at the moment of
the call. -/
def from_plugin_function (srcValNow : Option String) : PreStrategy :=
  fun p _ => (p, if truthy srcValNow then srcValNow else none)

/-- Constructor call of `Cookie.from_plugin` (plugins.py lines 679-702):
`cls(name=name, value=plugin.value, function=..., flags=0)`, so the
cookie is seeded with the upstream value at construction time and all
flags are cleared. -/
def Cookie_from_plugin (srcValAtInit : Option String) (name : String) :
    Plugin := ⟨name, srcValAtInit, 0⟩

/-- Constructor call of `Header.from_plugin` (plugins.py lines 815-838):
`cls(name=name, value=None, function=..., flags=0)`. -/
def Header_from_plugin (name : String) : Plugin := ⟨name, none, 0⟩

/-- Translation of `Alter.process_value` (plugins.py lines 881-894).
`srcVal` is `self.plugins[0].value` (the wrapped plugin's current value),
`curVal` is `self.value` before the call (seeded at construction with the
wrapped plugin's value at that moment, line 874).  When `srcVal` is
truthy the transform's result is stored; either way `self.value` is
returned. -/
def process_value (alter_function : String → Option String)
    (srcVal curVal : Option String) : Option String :=
  match srcVal with
  | some s => if s.isEmpty then curVal else alter_function s
  | none => curVal

/-- Transform installed by `Alter.prepend` (plugins.py lines 896-901):
`lambda value: string + value`. -/
def alter_prepend_fn (pre : String) : String → Option String :=
  fun v => some (pre ++ v)

/-- Transform installed by `Alter.append` (plugins.py lines 903-908). -/
def alter_append_fn (suf : String) : String → Option String :=
  fun v => some (v ++ suf)

/-- One constituent of a `Combine` plugin: a literal string or another
plugin, of which only the current value matters here. -/
inductive CombineItem where
  | lit : String → CombineItem
  | plug : Option String → CombineItem

/-- The loop of `Combine.concatenate_values` (plugins.py lines 935-941)
with the accumulator `combined` made explicit: a string argument is
appended verbatim; a plugin argument is appended exactly when its value
is truthy. -/
def concatAux (acc : String) : List CombineItem → String
  | [] => acc
  | CombineItem.lit s :: rest => concatAux (acc ++ s) rest
  | CombineItem.plug none :: rest => concatAux acc rest
  | CombineItem.plug (some s) :: rest =>
      if s.isEmpty then concatAux acc rest else concatAux (acc ++ s) rest

/-- Translation of `Combine.concatenate_values` (plugins.py lines
928-941), starting from the empty accumulator. -/
def concatenate_values (args : List CombineItem) : String := concatAux "" args

/-- Concatenation as the spec words it: literals contribute verbatim,
nodes contribute their current value if present and nothing when it is
absent.  Declared to be compared with `concatenate_values`. -/
def combine_spec_concat : List CombineItem → String
  | [] => ""
  | CombineItem.lit s :: rest => s ++ combine_spec_concat rest
  | CombineItem.plug v :: rest => v.getD "" ++ combine_spec_concat rest

/-! Helper lemmas shared by the claim theorems. -/

/-- The concatenation loop of `Combine.concatenate_values` equals
appending the spec-worded concatenation to the accumulator. -/
theorem concatAux_eq (args : List CombineItem) :
    ∀ acc : String, concatAux acc args = acc ++ combine_spec_concat args := by
  induction args with
  | nil => intro acc; simp [concatAux, combine_spec_concat, String.append_empty]
  | cons item rest ih =>
    intro acc
    cases item with
    | lit s =>
        simp [concatAux, combine_spec_concat, ih, String.append_assoc]
    | plug v =>
        cases v with
        | none =>
            simp [concatAux, combine_spec_concat, ih, String.empty_append]
        | some s =>
            by_cases hs : s.isEmpty = true
            · have h0 : s = "" := (String.isEmpty_iff s).1 hs
              subst h0
              simp [concatAux, combine_spec_concat, ih, hs, String.empty_append]
            · simp [concatAux, combine_spec_concat, ih, hs, String.append_assoc]

/-- The loop of `Html.extract_html_tag` computes the extracted attribute
of the last constraint-satisfying element, keeping the incoming value
when none satisfies them. -/
theorem htmlFold_lastMatching (mp : String → String → Bool)
    (attrs : List (String × String)) (ex : String) (elems : List HtmlElement) :
    ∀ v : Option String,
      htmlFold mp attrs ex v elems =
        match lastMatching (fun e => match_tag mp e attrs) elems with
        | some e => lookupStr e.attrs ex
        | none => v := by
  induction elems with
  | nil => intro v; rfl
  | cons e rest ih =>
      intro v
      simp only [htmlFold, lastMatching]
      rw [ih]
      cases h : lastMatching (fun x => match_tag mp x attrs) rest with
      | some r => rfl
      | none =>
          by_cases hp : match_tag mp e attrs = true
          · simp [hp]
          · simp [hp]

/-- Splitting the traversal of a JSON path at any point: the walk over a
concatenated path runs the first part and, when it succeeds, continues
with the second from the reached value. -/
theorem runSteps_append (pre : List JsonStep) :
    ∀ (doc : JsonValue) (l : List JsonStep),
      runSteps doc (pre ++ l) =
        match runSteps doc pre with
        | StepRes.ok cur => runSteps cur l
        | StepRes.absent => StepRes.absent
        | StepRes.err => StepRes.err := by
  induction pre with
  | nil => intro doc l; rfl
  | cons s rest ih =>
      intro doc l
      simp only [List.cons_append, runSteps]
      cases h : runStep doc s with
      | ok w => simpa using ih w l
      | absent => rfl
      | err => rfl

/-- Indexing a JSON array at or beyond its length yields nothing. -/
theorem JsonArr.get?_eq_none :
    ∀ (xs : JsonArr) (n : Nat), xs.length ≤ n → xs.get? n = none
  | JsonArr.nil, _, _ => rfl
  | JsonArr.cons _ _, 0, h => absurd h (Nat.not_succ_le_zero _)
  | JsonArr.cons _ rest, n + 1, h =>
      JsonArr.get?_eq_none rest n (Nat.le_of_succ_le_succ h)

/-! Claim theorems. -/

/-- C1, counterexample.  The claim says a `Regex` node resolved against a
text its pattern does not match returns absent; but `extract_regex`
returns `self.value` unchanged, so a node holding a previously extracted
value returns that stale value, not absent, on a later no-match
resolution. -/
theorem C1_regex_counterexample :
    extract_regex ⟨"token", "sess=([a-z]+)", 0, some "old"⟩ none =
      Except.ok (⟨"token", "sess=([a-z]+)", 0, some "old"⟩, some "old",
        [⟨LogLevel.warning, "token"⟩]) ∧
    (some "old" : Option String) ≠ none := ⟨rfl, by decide⟩

/-- C1, amended.  For every `Regex` node resolved against a response
text: if the pattern has no match, resolution logs a warning and leaves
the node's value unchanged, returning it (absent exactly when the node
holds no previously extracted value); if it matches, the returned string
equals the content of the capture group selected by the node's extract
index (default 0, the first parenthesised group) of the first match in
the text, and that content is stored as the node's value with a debug
log. -/
theorem C1_regex_amended (p : RegexState) (m : Option ReMatch) :
    (m = none →
      extract_regex p m =
        Except.ok (p, p.value, [⟨LogLevel.warning, p.name⟩])) ∧
    (∀ mt g, m = some mt → mt.groups.get? p.extract = some g →
      extract_regex p m =
        Except.ok ({p with value := g}, g, [⟨LogLevel.debug, p.name⟩])) := by
  constructor
  · intro h; subst h; rfl
  · intro mt g hm hg
    subst hm
    simp only [extract_regex]
    rw [hg]

/-- C1, witness: a match whose first capture group is `"abc"` is stored
and returned. -/
theorem C1_regex_witness :
    extract_regex ⟨"token", "sess=([a-z]+)", 0, none⟩ (some ⟨[some "abc"]⟩) =
      Except.ok (⟨"token", "sess=([a-z]+)", 0, some "abc"⟩, some "abc",
        [⟨LogLevel.debug, "token"⟩]) :=
  (C1_regex_amended ⟨"token", "sess=([a-z]+)", 0, none⟩
    (some ⟨[some "abc"]⟩)).2 ⟨[some "abc"]⟩ (some "abc") rfl rfl

/-- C2.  For every `Json` node and well-formed document: when the parsed
path reaches a step that names a key missing from the current object, or
an index at or beyond the length of the current array, extraction returns
absent, sets the node's value to absent, logs a warning, and does not
raise (the result is `Except.ok`, not `Except.error`). -/
theorem C2_json_missing (p : JsonState) (doc cur : JsonValue)
    (pre rest : List JsonStep) (st : JsonStep)
    (hsteps : p.extract = pre ++ st :: rest)
    (hpre : runSteps doc pre = StepRes.ok cur)
    (hfail :
      (∃ k fs, st = JsonStep.key k ∧ cur = JsonValue.obj fs ∧
        fs.lookup k = none) ∨
      (∃ n xs, st = JsonStep.idx n ∧ cur = JsonValue.arr xs ∧
        xs.length ≤ n)) :
    extract_json_field p doc =
      Except.ok ({p with value := none}, none,
        [⟨LogLevel.warning, p.name⟩]) := by
  have hstep : runStep cur st = StepRes.absent := by
    rcases hfail with ⟨k, fs, h1, h2, h3⟩ | ⟨n, xs, h1, h2, h3⟩
    · subst h1; subst h2
      simp only [runStep]
      rw [h3]
    · subst h1; subst h2
      simp only [runStep]
      rw [JsonArr.get?_eq_none xs n h3]
  have hall : runSteps doc p.extract = StepRes.absent := by
    rw [hsteps, runSteps_append, hpre]
    simp only [runSteps]
    rw [hstep]
  simp only [extract_json_field]
  rw [hall]

/-- C2, witness: looking up the missing key `"b"` at the top of the
document `\x7b"a": 1\x7d` yields absent without raising, with a
warning. -/
theorem C2_json_missing_witness :
    extract_json_field ⟨"j", [JsonStep.key "b"], none⟩
        (JsonValue.obj (JsonObj.cons "a" (JsonValue.num 1) JsonObj.nil)) =
      Except.ok (⟨"j", [JsonStep.key "b"], none⟩, none,
        [⟨LogLevel.warning, "j"⟩]) :=
  C2_json_missing ⟨"j", [JsonStep.key "b"], none⟩
    (JsonValue.obj (JsonObj.cons "a" (JsonValue.num 1) JsonObj.nil))
    (JsonValue.obj (JsonObj.cons "a" (JsonValue.num 1) JsonObj.nil))
    [] [] (JsonStep.key "b") rfl rfl
    (Or.inl ⟨"b", JsonObj.cons "a" (JsonValue.num 1) JsonObj.nil,
      rfl, rfl, rfl⟩)

/-- C3, counterexample.  The claim says a non-absent strategy result
overwrites the node's value with a debug log; but the code tests Python
truthiness, so the non-absent empty string (here: a cookie present in the
response with an empty value) is treated as a failure: the value is not
overwritten and a warning, not a debug line, is logged. -/
theorem C3_resolve_counterexample :
    cookie_extract_from_response ⟨"sess", none, NEEDS_RESPONSE⟩
        ⟨"", [("sess", "")], []⟩ =
      (⟨"sess", none, NEEDS_RESPONSE⟩, some "") ∧
    extract_value_from_response cookie_extract_from_response
        ⟨"sess", none, NEEDS_RESPONSE⟩ ⟨"", [("sess", "")], []⟩ =
      (⟨"sess", none, NEEDS_RESPONSE⟩, [⟨LogLevel.warning, "sess"⟩]) ∧
    (some "" : Option String) ≠ none := ⟨rfl, rfl, by decide⟩

/-- C3, amended.  For every node with NeedsResponse set,
`extract_value_from_response` invokes the strategy with the response;
when the strategy's result is truthy (non-absent and non-empty) it
overwrites the node's value and logs at debug level; when the result is
absent or empty it leaves the node's value as the strategy left it
(hence absent whenever it was absent before) and logs a warning naming
the node; in both cases it returns normally, never raising for not-found
conditions. -/
theorem C3_resolve_amended (f : RStrategy) (p : Plugin) (r : HttpResponse) :
    (truthy (f p r).2 = true →
      extract_value_from_response f p r =
        ({(f p r).1 with value := (f p r).2},
          [⟨LogLevel.debug, (f p r).1.name⟩])) ∧
    (truthy (f p r).2 = false →
      extract_value_from_response f p r =
        ((f p r).1, [⟨LogLevel.warning, (f p r).1.name⟩])) := by
  unfold extract_value_from_response
  constructor <;> intro h <;> simp [h]

/-- C3, witness: a cookie present with a non-empty value is stored with a
debug log. -/
theorem C3_resolve_witness :
    extract_value_from_response cookie_extract_from_response
        ⟨"sess", none, NEEDS_RESPONSE⟩ ⟨"", [("sess", "abc")], []⟩ =
      (⟨"sess", some "abc", NEEDS_RESPONSE⟩, [⟨LogLevel.debug, "sess"⟩]) :=
  (C3_resolve_amended cookie_extract_from_response
    ⟨"sess", none, NEEDS_RESPONSE⟩ ⟨"", [("sess", "abc")], []⟩).1 rfl

/-- C4.  The claim follows the spec: a `Variable` node's pre-request
resolution should return `user_data[name]` when the name is a key of the
mapping and absent otherwise, without raising.  The code instead installs
`lambda data: data[self.name]` (plugins.py line 534), whose subscript
raises `KeyError` on a missing key — even though the base class provides
`extract_from_userdata` (lines 151-170), documented to return `None` in
exactly that case, which would be installed had no function been passed.
This theorem evaluates the embedded code at the failing input (empty
user-data mapping) and at a present key. -/
theorem C4_variable_keyerror :
    variable_get_value (Variable_init "username") [] =
      Except.error "username" ∧
    variable_get_value (Variable_init "username") [("username", "admin")] =
      Except.ok (⟨"username", some "admin", NEEDS_USERDATA⟩, some "admin") :=
  ⟨rfl, rfl⟩

/-- C5, counterexample.  The claim says that when no element matches the
result is absent with a logged warning; but `extract_html_tag` leaves
`self.value` unchanged and logs only a debug line, so a node holding a
previously extracted value returns that stale value and no warning is
emitted by the strategy. -/
theorem C5_html_counterexample :
    extract_html_tag (fun _ _ => true)
        ⟨"csrf", "input", [("name", ".*")], "value", some "stale"⟩
        [⟨[("id", "x")]⟩] =
      (⟨"csrf", "input", [("name", ".*")], "value", some "stale"⟩,
        some "stale", [⟨LogLevel.debug, "csrf"⟩]) ∧
    (some "stale" : Option String) ≠ none := ⟨rfl, by decide⟩

/-- C5, amended.  For every `Html` node resolved against markup: when at
least one element satisfies all attribute constraints, the result equals
the extracted attribute of the last matching element in document order
(absent if that element lacks the extracted attribute), and it is stored
as the node's value; when no element matches, the node's value is left
unchanged and returned (absent for a node with no previously stored
value).  In both cases the strategy logs a single debug line; the warning
for an absent result is emitted by the generic response-resolution
wrapper, not here. -/
theorem C5_html_amended (mp : String → String → Bool) (p : HtmlState)
    (elems : List HtmlElement) :
    (∀ e, lastMatching (fun x => match_tag mp x p.attributes) elems = some e →
      extract_html_tag mp p elems =
        ({p with value := lookupStr e.attrs p.extract},
          lookupStr e.attrs p.extract, [⟨LogLevel.debug, p.name⟩])) ∧
    (lastMatching (fun x => match_tag mp x p.attributes) elems = none →
      extract_html_tag mp p elems =
        (p, p.value, [⟨LogLevel.debug, p.name⟩])) := by
  constructor
  · intro e he
    unfold extract_html_tag
    rw [htmlFold_lastMatching, he]
  · intro he
    unfold extract_html_tag
    rw [htmlFold_lastMatching, he]

/-- C5, witness: two elements satisfy the constraint; the second one's
attribute wins. -/
theorem C5_html_witness :
    extract_html_tag (fun _ _ => true)
        ⟨"csrf", "input", [("name", ".*")], "value", none⟩
        [⟨[("name", "a"), ("value", "v1")]⟩,
          ⟨[("name", "b"), ("value", "v2")]⟩] =
      (⟨"csrf", "input", [("name", ".*")], "value", some "v2"⟩, some "v2",
        [⟨LogLevel.debug, "csrf"⟩]) :=
  (C5_html_amended (fun _ _ => true)
    ⟨"csrf", "input", [("name", ".*")], "value", none⟩
    [⟨[("name", "a"), ("value", "v1")]⟩,
      ⟨[("name", "b"), ("value", "v2")]⟩]).1
    ⟨[("name", "b"), ("value", "v2")]⟩ rfl

/-- C6, counterexample.  The claim says objects render as their textual
JSON form; but the code applies Python `str`, which renders a dict with
repr, single-quoting strings: extracting `"a"` from
`\x7b"a": \x7b"b": "c"\x7d\x7d` stores `\x7b'b': 'c'\x7d`, which is not
the textual JSON form of that subobject. -/
theorem C6_json_counterexample :
    extract_json_field ⟨"j", [JsonStep.key "a"], none⟩
        (JsonValue.obj (JsonObj.cons "a"
          (JsonValue.obj (JsonObj.cons "b" (JsonValue.str "c") JsonObj.nil))
          JsonObj.nil)) =
      Except.ok (⟨"j", [JsonStep.key "a"], some "\x7b'b': 'c'\x7d"⟩,
        some "\x7b'b': 'c'\x7d", [⟨LogLevel.debug, "j"⟩]) ∧
    jsonTextualForm
        (JsonValue.obj (JsonObj.cons "b" (JsonValue.str "c") JsonObj.nil)) =
      "\x7b\"b\": \"c\"\x7d" ∧
    ("\x7b'b': 'c'\x7d" : String) ≠ "\x7b\"b\": \"c\"\x7d" :=
  ⟨rfl, rfl, by decide⟩

/-- C6, amended.  For every `Json` node, well-formed document and valid
path, extraction returns the addressed substructure stringified with
Python `str`: objects and arrays render in repr form (single-quoted
strings, `True`/`False`/`None` capitalisation), scalars as their plain
text form; the value is stored with a debug log.  The stringification is
identical whether the node is driven by a response body or by another
node's already-resolved value, because both construction modes run
`extract_json_field` on their text. -/
theorem C6_json_value (p : JsonState) (doc sub : JsonValue)
    (parse : String → Option JsonValue) (r : HttpResponse) (upstream : String)
    (h : runSteps doc p.extract = StepRes.ok sub) :
    extract_json_field p doc =
      Except.ok ({p with value := some (pystr sub)}, some (pystr sub),
        [⟨LogLevel.debug, p.name⟩]) ∧
    (r.text = upstream →
      extract_json_from_response parse p r =
        extract_json_from_plugin_value parse p upstream) := by
  constructor
  · simp only [extract_json_field]
    rw [h]
  · intro ht
    unfold extract_json_from_response extract_json_from_plugin_value
    rw [ht]

/-- C6, witness: extracting key `"a"` holding the number 7 stores the
plain text `"7"`. -/
theorem C6_json_value_witness :
    extract_json_field ⟨"j", [JsonStep.key "a"], none⟩
        (JsonValue.obj (JsonObj.cons "a" (JsonValue.num 7) JsonObj.nil)) =
      Except.ok (⟨"j", [JsonStep.key "a"], some "7"⟩, some "7",
        [⟨LogLevel.debug, "j"⟩]) :=
  (C6_json_value ⟨"j", [JsonStep.key "a"], none⟩
    (JsonValue.obj (JsonObj.cons "a" (JsonValue.num 7) JsonObj.nil))
    (JsonValue.num 7) (fun _ => none) ⟨"", [], []⟩ "" rfl).1

/-- C7.  For every ordered sequence of items, `concatenate_values`
returns the concatenation in which literal strings contribute verbatim
and nodes contribute their current value when present, while
absent-valued nodes contribute nothing and cause no error; in particular
combining the literal `"Bearer "` with a node valued `"abc123"` yields
`"Bearer abc123"`, and yields `"Bearer "` when that node's value is
absent.  (The code skips an empty-string value where the spec wording
appends it; both produce the same concatenation.) -/
theorem C7_combine_concat (args : List CombineItem) :
    concatenate_values args = combine_spec_concat args ∧
    concatenate_values
        [CombineItem.lit "Bearer ", CombineItem.plug (some "abc123")] =
      "Bearer abc123" ∧
    concatenate_values [CombineItem.lit "Bearer ", CombineItem.plug none] =
      "Bearer " := by
  refine ⟨?_, rfl, rfl⟩
  have h := concatAux_eq args ""
  simpa [concatenate_values, String.empty_append] using h

/-- C8, counterexample.  The claim says that whenever the source node has
a value the transform is invoked and its result stored; but the code
tests Python truthiness, so a present empty value (source value `""`) is
treated like absence: the transform (whose result would be `"X-"`) is not
applied and the `Alter` node's value stays unchanged. -/
theorem C8_alter_counterexample :
    process_value (alter_prepend_fn "X-") (some "") none = none ∧
    alter_prepend_fn "X-" "" = some "X-" ∧
    (none : Option String) ≠ some "X-" := ⟨rfl, rfl, by decide⟩

/-- C8, amended.  For every `Alter` node wrapping one source node and a
transform: if the source node's current value is present and non-empty,
resolution invokes the transform on it and stores and returns the result
(so `Alter.prepend(node, "X-")` on value `s` yields `"X-" ++ s`); if the
source node's value is absent or empty, the transform is not invoked —
the result does not depend on it — and the `Alter` node's value is left
unchanged (absent whenever it was absent). -/
theorem C8_alter_amended (f : String → Option String)
    (srcVal curVal : Option String) :
    (∀ s, srcVal = some s → s.isEmpty = false →
      process_value f srcVal curVal = f s) ∧
    (srcVal = none ∨ srcVal = some "" →
      ∀ g : String → Option String, process_value g srcVal curVal = curVal) ∧
    (∀ s, s.isEmpty = false →
      process_value (alter_prepend_fn "X-") (some s) curVal =
        some ("X-" ++ s)) := by
  refine ⟨?_, ?_, ?_⟩
  · intro s hs he
    subst hs
    simp [process_value, he]
  · rintro (h | h) g <;> subst h <;> rfl
  · intro s he
    simp [process_value, he, alter_prepend_fn]

/-- C8, witness: prepending `"X-"` to a source valued `"token"` yields
`"X-token"`. -/
theorem C8_alter_witness :
    process_value (alter_prepend_fn "X-") (some "token") none =
      some "X-token" :=
  (C8_alter_amended (alter_prepend_fn "X-") (some "token") none).2.2
    "token" rfl

/-- C9, counterexample.  The claim says resolving a `from_node` artifact
returns the updated current value of the source node; but the installed
lambda tests Python truthiness, so after the source's value changes to
the empty string the artifact resolves to absent, not to that current
value. -/
theorem C9_from_plugin_counterexample :
    (get_value (from_plugin_function (some ""))
        (Cookie_from_plugin (some "old") "Auth") []).2 = none ∧
    (none : Option String) ≠ some "" := ⟨rfl, by decide⟩

/-- C9, amended.  For every node `n` and every Header or Cookie built via
`from_plugin(n, name)`, resolving the artifact returns the value of `n`
as it is at resolution time when that value is non-empty, and absent when
it is absent or empty — never a value frozen at construction time: the
result is independent of the value the source held when the artifact was
built (which seeds the Cookie's initial `value` and is discarded on first
resolution). -/
theorem C9_from_plugin_amended (srcInit srcNow : Option String)
    (name : String) (userdata : List (String × String)) :
    get_value (from_plugin_function srcNow) (Cookie_from_plugin srcInit name)
        userdata =
      (⟨name, if truthy srcNow then srcNow else none, 0⟩,
        if truthy srcNow then srcNow else none) ∧
    get_value (from_plugin_function srcNow) (Header_from_plugin name)
        userdata =
      (⟨name, if truthy srcNow then srcNow else none, 0⟩,
        if truthy srcNow then srcNow else none) := by
  constructor <;>
    simp [get_value, needs_response, needs_userdata, Cookie_from_plugin,
      Header_from_plugin, from_plugin_function, NEEDS_RESPONSE, NEEDS_USERDATA]

/-- C10.  For every node with the NeedsResponse flag set, `get_value`
does not invoke the strategy (the result is the same for every strategy
`f`), does not modify any field of the node, and returns the node's
current value, silently rather than signalling an error. -/
theorem C10_get_value_frame (p : Plugin) (f : PreStrategy)
    (userdata : List (String × String)) (h : needs_response p = true) :
    get_value f p userdata = (p, p.value) := by
  unfold get_value
  simp [h]

/-- C10, witness: a response-flagged node is untouched by `get_value`
even under a strategy that would overwrite its value. -/
theorem C10_get_value_frame_witness :
    get_value (fun q _ => ({q with value := some "CHANGED"}, some "CHANGED"))
        ⟨"x", some "v", NEEDS_RESPONSE⟩ [] =
      (⟨"x", some "v", NEEDS_RESPONSE⟩, some "v") :=
  C10_get_value_frame ⟨"x", some "v", NEEDS_RESPONSE⟩
    (fun q _ => ({q with value := some "CHANGED"}, some "CHANGED")) [] rfl
